import Mathlib

/-
  Shallow embedding of the image-detection engine of the manga-viewer
  browser extension (src/content.js).  DOM state, the performance
  resource-timing list, the raw-HTML regex matches and the URL resolver
  are modelled as an explicit environment; strategies are functions from
  this environment to a candidate list plus the (possibly mutated)
  environment, mirroring the in-place `img.src` writes of the source.
-/

namespace MangaViewer

/-- CONFIG.minImageHeight (content.js line 8). -/
def CONFIG.minImageHeight : Nat := 400

/-- CONFIG.minImageWidth (content.js line 9). -/
def CONFIG.minImageWidth : Nat := 200

/-- CONFIG.minMangaImageCount (content.js line 12). -/
def CONFIG.minMangaImageCount : Nat := 2

/-- CONFIG.niconico.defaultThreshold = 0.65 (content.js line 18). -/
def CONFIG.niconicoDefaultThreshold : ℚ := 13/20

/-- CONFIG.niconico.minPixelCount (content.js line 19). -/
def CONFIG.niconicoMinPixelCount : Nat := 200000

/-- CONFIG.niconico.transparentAlpha (content.js line 20). -/
def CONFIG.niconicoTransparentAlpha : Nat := 10

/-- One `<img>` element (or detached `Image` object).  `src` is the string
value of the src attribute, `""` when unset (JS falsy).  The `ds…` fields
are the dataset attributes the engine reads or writes; `none` means the
attribute is absent.  `srcWritable` models `Object.defineProperty(img, src,
\x7bwritable: false\x7d)` used by the iframe strategy: once false, further
src writes are rejected (a throw the source catches).  `containers` lists
the CSS container classes the element sits inside, so that
`document.querySelectorAll(".cls img")` is the document-order sublist of
images whose `containers` holds `"cls"`.  `rectTop` models
`getBoundingClientRect().top`. -/
structure Img where
  src : String := ""
  srcWritable : Bool := true
  dsSrc : Option String := none
  dsOriginal : Option String := none
  dsLazySrc : Option String := none
  dsPreload : Option String := none
  srcset : String := ""
  currentSrc : String := ""
  isResourceDetected : Bool := false
  isTextScanned : Bool := false
  isNiconicoCanvas : Bool := false
  canvasIndex : Option Nat := none
  resourceIndex : Option Nat := none
  textScanIndex : Option Nat := none
  complete : Bool := false
  naturalWidth : Nat := 0
  naturalHeight : Nat := 0
  rectTop : Int := 0
  containers : List String := []
  deriving DecidableEq, Repr

/-- One `<canvas>` element.  `data` is the RGBA byte buffer returned by
`getImageData` (alpha bytes at indices 3, 7, 11, …).  `dataUrl` is the
result of `toDataURL("image/png")`; `none` models the call throwing
(tainted canvas), which the source catches and skips. -/
structure Canvas where
  width : Nat
  height : Nat
  data : List Nat
  dataUrl : Option String
  deriving DecidableEq, Repr

/-- The first `<iframe>` of the document.  `accessible = false` models a
cross-origin `contentDocument` access throwing; `docImgs = none` models a
null content document.  `src` is the iframe src attribute. -/
structure Iframe where
  src : String := ""
  accessible : Bool := true
  docImgs : Option (List Img) := none

/-- The page environment a detection pass reads and mutates:
document images (in document order), canvases, first iframe,
`performance.getEntriesByType("resource")` names (in entry order),
the successive matches of the image-URL regex over
`document.documentElement.outerHTML` (the regex engine is a browser
primitive, modelled as this oracle list), and the `new URL(src,
origin-of-iframeSrc).href` resolver (`none` models a throw). -/
structure Env where
  imgs : List Img := []
  canvases : List Canvas := []
  iframe : Option Iframe := none
  resources : List String := []
  textScanMatches : List String := []
  resolveUrl : String → String → Option String := fun _ _ => none

/-- The live session state of content.js: `state.currentPage`,
`state.images`, `state.detectedMode`, `state.settings.detectionMode`,
`state.niconico.threshold`, whether the viewer container is displayed
(`elements.container.style.display === "flex"`), and the value stored in
`chrome.storage.sync` under `mangaDetectionMode_<hostname>` for the
current hostname. -/
structure Session where
  currentPage : Nat := 0
  images : List Img := []
  detectedMode : Option String := none
  detectionMode : String := "auto"
  niconicoThreshold : ℚ := CONFIG.niconicoDefaultThreshold
  viewerVisible : Bool := false
  storedDetectionMode : Option String := none
  deriving DecidableEq, Repr

/-- JS truthiness of an optional string attribute: present and non-empty. -/
def jsTruthy : Option String → Bool
  | some s => s ≠ ""
  | none => false

/-- Does the first character list start with the second?  (Structural
implementation of the string primitives, so that concrete runs of the
model reduce inside the kernel.) -/
def leadsWith : List Char → List Char → Bool
  | _, [] => true
  | [], _ :: _ => false
  | c :: s, p :: ps => c = p && leadsWith s ps

/-- Does `pat` occur as a contiguous run inside `hay`? -/
def occursIn (pat : List Char) : List Char → Bool
  | [] => pat.isEmpty
  | c :: rest => leadsWith (c :: rest) pat || occursIn pat rest

/-- Substring test: `String.prototype.includes`. -/
def containsStr (s pat : String) : Bool := occursIn pat.data s.data

/-- Suffix test: `String.prototype.endsWith` / regex `$` anchoring. -/
def strEndsWith (s suf : String) : Bool :=
  leadsWith s.data.reverse suf.data.reverse

/-- `String.prototype.toLowerCase` (over the characters the engine meets). -/
def strToLower (s : String) : String := ⟨s.data.map Char.toLower⟩

/-- `String.prototype.trim`. -/
def strTrim (s : String) : String :=
  ⟨((s.data.dropWhile Char.isWhitespace).reverse.dropWhile Char.isWhitespace).reverse⟩

/-- `String.prototype.split` with a one-character separator, JS
semantics: `"".split(sep)` is `[""]`, separators delimit possibly empty
pieces. -/
def splitChars (sep : Char) : List Char → List (List Char)
  | [] => [[]]
  | c :: rest =>
    if c = sep then [] :: splitChars sep rest
    else
      match splitChars sep rest with
      | h :: t => (c :: h) :: t
      | [] => [[c]]

/-- String-level wrapper of `splitChars`. -/
def strSplit (sep : Char) (s : String) : List String :=
  (splitChars sep s.data).map fun l => ⟨l⟩

/-- ImageDetector.isImageUrl (line 444): the regex
`\.(jpe?g|png|webp|gif)(\?.*)?$` with the i flag.  A lower-cased URL
matches iff it ends with one of the dotted extensions or contains the
dotted extension immediately followed by `?` (the query part then runs to
the end of the string). -/
def isImageUrl (url : String) : Bool :=
  let l := strToLower url
  ["jpg", "jpeg", "png", "webp", "gif"].any fun ext =>
    strEndsWith l ("." ++ ext) || containsStr l ("." ++ ext ++ "?")

/-- ImageDetector.matchesExcludePatterns (line 445). -/
def matchesExcludePatterns (src : String) (patterns : List String) : Bool :=
  patterns.any fun pattern => containsStr (strToLower src) pattern

/-- The exclude keyword list of detectFromDocument (line 362). -/
def excludeKeywordList : List String :=
  ["icon", "logo", "avatar", "banner", "header", "footer", "thumb",
   "thumbnail", "profile", "menu", "button", "bg", "background", "nav",
   "sidebar", "ad", "advertisement", "favicon", "sprite"]

/-- The exclude keyword list of detectFromResources (line 377) and
detectFromTextScan (line 392): `"summary"` plus the document list. -/
def scanExcludeKeywordList : List String := "summary" :: excludeKeywordList

/-- ImageDetector.isImageLoaded (line 439). -/
def isImageLoaded (img : Img) : Bool :=
  img.complete && decide (0 < img.naturalHeight) && decide (0 < img.naturalWidth)

/-- ImageDetector.isValidImageSize (lines 440-443). -/
def isValidImageSize (img : Img) : Bool :=
  if img.isNiconicoCanvas then true
  else decide (CONFIG.minImageHeight ≤ img.naturalHeight) &&
       decide (CONFIG.minImageWidth ≤ img.naturalWidth)

/-- The first truthy entry of `[img.dataset.src, img.dataset.original,
img.dataset.lazySrc]` (normalizeImageSrc line 431-432). -/
def firstCandidate (img : Img) : Option String :=
  [img.dsSrc, img.dsOriginal, img.dsLazySrc].findSome? fun o =>
    if jsTruthy o then o else none

/-- The srcset fallback of normalizeImageSrc (line 435):
`img.currentSrc || img.srcset.split(",").pop().trim().split(" ")[0]`. -/
def srcsetFallback (img : Img) : String :=
  if img.currentSrc ≠ "" then img.currentSrc
  else (strSplit ' ' (strTrim ((strSplit ',' img.srcset).getLastD ""))).headD ""

/-- The first write of normalizeImageSrc (line 433): promote the first
truthy lazy-load dataset attribute into an empty src. -/
def normalizeStep1 (img : Img) : Img :=
  if img.src = "" then
    match firstCandidate img with
    | some c => { img with src := c }
    | none => img
  else img

/-- The second write of normalizeImageSrc (lines 434-437): when the src is
still empty and a srcset is present, fall back to currentSrc or the last
srcset candidate (when that is non-empty). -/
def normalizeStep2 (img : Img) : Img :=
  if img.src = "" ∧ img.srcset ≠ "" then
    if srcsetFallback img ≠ "" then { img with src := srcsetFallback img }
    else img
  else img

/-- ImageDetector.normalizeImageSrc (lines 430-438), as the pure update it
performs on one image: the dataset promotion followed by the srcset
fallback (which reads only fields the first step leaves unchanged). -/
def normalizeImageSrc (img : Img) : Img := normalizeStep2 (normalizeStep1 img)

/-- The filter of detectFromDocument (lines 363-371), applied after
normalizeImageSrc has run on the image. -/
def documentFilter (img : Img) : Bool :=
  if img.isResourceDetected || img.isTextScanned || img.isNiconicoCanvas then true
  else if img.dsPreload = some "yes" then true
  else if img.src = "" then false
  else if ¬ isImageLoaded img then isImageUrl img.src
  else if ¬ isValidImageSize img then false
  else ¬ matchesExcludePatterns img.src excludeKeywordList

/-- Generic first-occurrence de-duplication by a string key, with an
accumulator of already-seen keys: the `seenSrcs` Set of
filterAndSortImages (lines 448-452) and the `foundUrls` Set of
detectFromTextScan (line 385). -/
def dedupeByKey (key : α → String) (seen : List String) : List α → List α
  | [] => []
  | x :: rest =>
    if key x ∈ seen then dedupeByKey key seen rest
    else x :: dedupeByKey key (key x :: seen) rest

/-- The comparator branch on a pair of same-kind ordinal hints: used only
when both images carry the dataset index (JS `a.dataset.i && b.dataset.i`). -/
def idxCmp : Option Nat → Option Nat → Option Int
  | some i, some j => some ((i : Int) - (j : Int))
  | _, _ => none

/-- The comparator of sortImagesByPosition (lines 456-462): canvas index,
else resource index, else text-scan index (each only when both sides carry
it), else the difference of the bounding-rect tops. -/
def imgCmp (a b : Img) : Int :=
  (idxCmp a.canvasIndex b.canvasIndex).getD
    ((idxCmp a.resourceIndex b.resourceIndex).getD
      ((idxCmp a.textScanIndex b.textScanIndex).getD (a.rectTop - b.rectTop)))

/-- Stable insertion used to model the (stable, ECMAScript 2019)
`Array.prototype.sort`: an element is placed before the first element the
comparator ranks strictly after it. -/
def insertImg (a : Img) : List Img → List Img
  | [] => [a]
  | b :: l => if imgCmp a b ≤ 0 then a :: b :: l else b :: insertImg a l

/-- ImageDetector.sortImagesByPosition (lines 455-463), modelled as a
stable sort under `imgCmp`. -/
def sortImagesByPosition : List Img → List Img
  | [] => []
  | a :: l => insertImg a (sortImagesByPosition l)

/-- ImageDetector.filterAndSortImages (lines 446-454): below the minimum
count return nothing, otherwise de-duplicate on src (keeping the first
occurrence) and sort. -/
def filterAndSortImages (images : List Img) : List Img :=
  if images.length < CONFIG.minMangaImageCount then []
  else sortImagesByPosition (dedupeByKey Img.src [] images)

/-- The `potential` list of detectFromDocument (lines 363-371): every
document image is normalized in place, then filtered. -/
def potentialImages (e : Env) : List Img :=
  (e.imgs.map normalizeImageSrc).filter documentFilter

/-- ImageDetector.detectFromDocument (lines 360-373).  The returned
environment records the in-place src normalization of every document
image. -/
def detectFromDocument (e : Env) : List Img × Env :=
  (filterAndSortImages (potentialImages e),
   { e with imgs := e.imgs.map normalizeImageSrc })

/-- The fresh `Image` object detectFromResources builds for one URL
(lines 378-380). -/
def mkResourceImg (url : String) (index : Nat) : Img :=
  { src := url, resourceIndex := some index, isResourceDetected := true }

/-- The fresh `Image` object detectFromTextScan builds for one URL
(lines 393-395). -/
def mkTextScanImg (url : String) (index : Nat) : Img :=
  { src := url, textScanIndex := some index, isTextScanned := true }

/-- `urls.map((url, index) => f url index)` starting at `index = i`. -/
def mapWithIndex (f : String → Nat → Img) : List String → Nat → List Img
  | [], _ => []
  | u :: rest, i => f u i :: mapWithIndex f rest (i + 1)

/-- ImageDetector.detectFromResources (lines 374-381): keep the resource
entry names that look like image URLs and pass the exclude list, and wrap
each in a fresh detached image carrying its list index.  No DOM mutation. -/
def detectFromResources (e : Env) : List Img × Env :=
  let imageUrls := (e.resources.filter isImageUrl).filter fun url =>
    ¬ matchesExcludePatterns (strToLower url) scanExcludeKeywordList
  (mapWithIndex mkResourceImg imageUrls 0, e)

/-- ImageDetector.detectFromTextScan (lines 382-396): collect the regex
matches into a Set (first-occurrence de-duplication in insertion order),
filter by the exclude list, and wrap each survivor in a fresh detached
image carrying its index.  No DOM mutation. -/
def detectFromTextScan (e : Env) : List Img × Env :=
  let filteredUrls := (dedupeByKey id [] e.textScanMatches).filter fun url =>
    ¬ matchesExcludePatterns (strToLower url) scanExcludeKeywordList
  (mapWithIndex mkTextScanImg filteredUrls 0, e)

/-- The selector configuration of DETECTION_MODES (lines 32-35): the CSS
container class and the dataSrcSupport flag, for the four selector modes;
`none` for every other name (`detectBySelector` then returns nothing,
line 399). -/
def detectionModeSelector (name : String) : Option (String × Bool) :=
  if name = "reading-content" then some ("reading-content", true)
  else if name = "chapter-content" then some ("chapter-content", true)
  else if name = "manga-reader" then some ("manga-reader", false)
  else if name = "entry-content" then some ("entry-content", true)
  else none

/-- The dataSrcSupport promotion of detectBySelector (line 402):
`if (!img.src && img.dataset.src) img.src = img.dataset.src`. -/
def promoteDataSrc (img : Img) : Img :=
  if img.src = "" ∧ jsTruthy img.dsSrc then
    { img with src := img.dsSrc.getD "" }
  else img

/-- The filter of detectBySelector (lines 404-409). -/
def selectorFilter (img : Img) : Bool :=
  if img.isResourceDetected || img.isTextScanned || img.isNiconicoCanvas then true
  else if img.src = "" then false
  else if ¬ isImageLoaded img then isImageUrl img.src
  else isValidImageSize img

/-- The in-place effect of one detectBySelector pass on one document
image: the promotion runs exactly on selector-matched images of a
dataSrcSupport mode. -/
def selectorStep (cls : String) (dataSrcSupport : Bool) (img : Img) : Img :=
  if dataSrcSupport && img.containers.contains cls then promoteDataSrc img
  else img

/-- ImageDetector.detectBySelector (lines 397-410).  The matched images
are the document-order images inside the configured container class; with
dataSrcSupport they get the data-src promotion written back in place
(hence the updated environment), then the filter keeps the plausible
ones.  No de-duplication and no sort. -/
def detectBySelector (configName : String) (e : Env) : List Img × Env :=
  match detectionModeSelector configName with
  | none => ([], e)
  | some (cls, dataSrcSupport) =>
    ((((e.imgs.map (selectorStep cls dataSrcSupport)).filter fun img =>
        img.containers.contains cls).filter selectorFilter),
     { e with imgs := e.imgs.map (selectorStep cls dataSrcSupport) })

/-- The filter of detectFromIframe (line 417): complete, positive natural
sizes, width at least 500. -/
def iframeCandidate (img : Img) : Bool :=
  img.complete && decide (0 < img.naturalHeight) &&
    decide (0 < img.naturalWidth) && decide (500 ≤ img.naturalWidth)

/-- The URL-resolution write of detectFromIframe (lines 418-426): a src not
starting with `http` is resolved against the iframe origin and frozen with
`Object.defineProperty`; a resolution failure is caught and leaves the
image untouched, and a src already frozen can no longer change (a
redefinition throw is caught as the same `URL conversion failed` path).
`applyResolved` is the write of the resolved URL for one image. -/
def applyResolved (img : Img) : Option String → Img
  | some full =>
    if img.srcWritable then { img with src := full, srcWritable := false }
    else img
  | none => img

/-- The full per-image URL-resolution step (lines 419-425): images with an
`http`-ish src are left alone, the rest get the resolver result written. -/
def resolveIframeImg (resolve : String → String → Option String)
    (iframeSrc : String) (img : Img) : Img :=
  if leadsWith img.src.data "http".data then img
  else applyResolved img (resolve img.src iframeSrc)

/-- The in-place effect of one detectFromIframe pass on one iframe-document
image: only the filtered candidates get the URL-resolution write. -/
def iframeStep (resolve : String → String → Option String)
    (iframeSrc : String) (img : Img) : Img :=
  if iframeCandidate img then resolveIframeImg resolve iframeSrc img else img

/-- ImageDetector.detectFromIframe (lines 411-429): no iframe, an
inaccessible (cross-origin) iframe or a null content document yields
nothing; otherwise filter the iframe-document images, resolve their URLs
in place, and sort by position. -/
def detectFromIframe (e : Env) : List Img × Env :=
  match e.iframe with
  | none => ([], e)
  | some f =>
    if f.accessible then
      match f.docImgs with
      | none => ([], e)
      | some imgs =>
        let f2 := { f with docImgs := some (imgs.map (iframeStep e.resolveUrl f.src)) }
        (sortImagesByPosition
          ((imgs.filter iframeCandidate).map (resolveIframeImg e.resolveUrl f.src)),
         { e with iframe := some f2 })
    else ([], e)

/-- The transparent-pixel count of NiconicoExtractor.extractFromCanvas
(lines 219-224): the loop `for (j = 3; j < data.length; j += 4)` counts
buffer entries at indices congruent to 3 mod 4 whose value is below
CONFIG.niconico.transparentAlpha; `j` is the index of the next entry. -/
def countTransparentFrom (j : Nat) : List Nat → Nat
  | [] => 0
  | a :: rest =>
    (if j % 4 = 3 ∧ a < CONFIG.niconicoTransparentAlpha then 1 else 0) +
      countTransparentFrom (j + 1) rest

/-- `transparentPixels` for a whole buffer. -/
def countTransparent (data : List Nat) : Nat := countTransparentFrom 0 data

/-- `transparencyRatio` of extractFromCanvas (line 225):
transparent pixels over width times height, as an exact rational. -/
def transparencyFraction (c : Canvas) : ℚ :=
  (countTransparent c.data : ℚ) / ((c.width : ℚ) * (c.height : ℚ))

/-- The per-canvas body of extractFromCanvas (lines 210-240) for the
canvas at index `i`, with `threshold` already the computed
`1 - state.niconico.threshold`: skip a canvas below the pixel floor,
accept when the transparency fraction is strictly below the threshold,
and emit the serialized image unless `toDataURL` throws. -/
def canvasToImg (threshold : ℚ) (i : Nat) (c : Canvas) : Option Img :=
  if c.width * c.height < CONFIG.niconicoMinPixelCount then none
  else if transparencyFraction c < threshold then
    match c.dataUrl with
    | some url =>
      some { src := url, canvasIndex := some i, isNiconicoCanvas := true }
    | none => none
  else none

/-- NiconicoExtractor.extractFromCanvas (lines 201-243), given the user
threshold `state.niconico.threshold`.  Enumerates all canvases (the index
counts skipped canvases too) and collects the accepted extractions.  No
DOM mutation. -/
def extractFromCanvas (userThreshold : ℚ) (e : Env) : List Img × Env :=
  ((e.canvases.enum.filterMap fun p => canvasToImg (1 - userThreshold) p.1 p.2), e)

/-- The ordered strategy table of detectWithAutoFallback (lines 336-346). -/
def strategyOrder : List String :=
  ["basic", "reading-content", "chapter-content", "manga-reader",
   "entry-content", "smart", "deep-scan", "frame-reader", "niconico-seiga"]

/-- The per-strategy condition (line 344): only the frame reader has one,
`document.querySelector("iframe")` must find an iframe. -/
def strategyCondition (name : String) (e : Env) : Bool :=
  if name = "frame-reader" then e.iframe.isSome else true

/-- Dispatch of a named strategy to its method, as in the strategy table
(lines 337-345) and the detectors table (lines 322-328): the four
selector modes go through detectBySelector, which itself returns nothing
for a name without a selector config. -/
def strategyRun (th : ℚ) (name : String) (e : Env) : List Img × Env :=
  if name = "basic" then detectFromDocument e
  else if name = "smart" then detectFromResources e
  else if name = "deep-scan" then detectFromTextScan e
  else if name = "frame-reader" then detectFromIframe e
  else if name = "niconico-seiga" then extractFromCanvas th e
  else detectBySelector name e

/-- The strategy loop of detectWithAutoFallback (lines 347-358): skip a
strategy whose condition fails, return the first result reaching
CONFIG.minMangaImageCount together with the winning name, thread the DOM
mutations of failing strategies, and report `none` (the `state.detectedMode
= null` write) when every strategy falls short. -/
def autoLoop (th : ℚ) : List String → Env → List Img × Option String × Env
  | [], e => ([], none, e)
  | n :: rest, e =>
    if strategyCondition n e then
      if CONFIG.minMangaImageCount ≤ (strategyRun th n e).1.length then
        ((strategyRun th n e).1, some n, (strategyRun th n e).2)
      else autoLoop th rest (strategyRun th n e).2
    else autoLoop th rest e

/-- ImageDetector.detectWithAutoFallback (lines 334-359): run the loop and
write the winner (or null) into `state.detectedMode`. -/
def detectWithAutoFallback (s : Session) (e : Env) : List Img × Session × Env :=
  ((autoLoop s.niconicoThreshold strategyOrder e).1,
   { s with detectedMode := (autoLoop s.niconicoThreshold strategyOrder e).2.1 },
   (autoLoop s.niconicoThreshold strategyOrder e).2.2)

/-- Attach an unchanged session to a strategy result. -/
def withSession (s : Session) (p : List Img × Env) : List Img × Session × Env :=
  (p.1, s, p.2)

/-- The ten keys of the DETECTION_MODES table (lines 25-36), which are
also the keys of the detectors table of detectByMode (lines 322-328). -/
def detectionModeNames : List String :=
  ["auto", "smart", "deep-scan", "basic", "frame-reader", "niconico-seiga",
   "reading-content", "chapter-content", "manga-reader", "entry-content"]

/-- ImageDetector.detectByMode (lines 320-333): dispatch through the
detectors table; a name outside the table logs a warning and falls back
to the basic document scan. -/
def detectByMode (s : Session) (mode : String) (e : Env) : List Img × Session × Env :=
  if mode = "auto" then detectWithAutoFallback s e
  else if mode ∈ strategyOrder then
    withSession s (strategyRun s.niconicoThreshold mode e)
  else withSession s (detectFromDocument e)

/-- ImageDetector.detect (lines 312-319): a non-auto configured mode goes
through detectByMode, otherwise the auto fallback runs. -/
def detect (s : Session) (e : Env) : List Img × Session × Env :=
  if s.detectionMode ≠ "auto" then detectByMode s s.detectionMode e
  else detectWithAutoFallback s e

/-- The change test of ImageManager.refresh (line 511):
`newImages.length !== state.images.length || newImages.some((img, i) =>
state.images[i] !== img)`.  Img equality in the model stands for the
reference identity the source compares. -/
def imagesChangedB (old new : List Img) : Bool :=
  new.length != old.length ||
    (List.range new.length).any fun i => old[i]? != new[i]?

/-- ImageManager.refresh (lines 509-522): detect, and only when the list
changed store it and (when the viewer container is displayed) update the
page info.  The returned Bool reports whether Viewer.updatePageInfo ran.
The watcher attachment (lines 518-521) registers event subscriptions only
and does not change the modelled state. -/
def refresh (s : Session) (e : Env) : Session × Env × Bool :=
  if imagesChangedB s.images (detect s e).1 then
    ({ (detect s e).2.1 with images := (detect s e).1 },
     (detect s e).2.2, (detect s e).2.1.viewerVisible)
  else ((detect s e).2.1, (detect s e).2.2, false)

/-- Viewer.showPage(0) (lines 647-668) restricted to the modelled state:
with no images it bails out, otherwise the page number (clamped into
range, hence 0) is stored and the container is displayed. -/
def showPage0 (s : Session) : Session :=
  if s.images.length = 0 then s
  else { s with currentPage := 0, viewerVisible := true }

/-- The auto-result persistence of the launchViewer handler (lines
806-811): when `state.detectedMode` is truthy and the configured mode is
still auto, store the winner under the hostname key and adopt it as the
session mode. -/
def pinDetectedMode (s : Session) : Session :=
  if s.detectedMode.isSome ∧ s.detectionMode = "auto" then
    { s with storedDetectionMode := s.detectedMode,
             detectionMode := s.detectedMode.getD "" }
  else s

/-- A sendResponse payload: `success`, the optional `reason`, and the
per-strategy counts of a testDetection response. -/
structure MsgResponse where
  success : Bool
  reason : Option String := none
  results : List (String × Nat) := []
  deriving DecidableEq, Repr

/-- The launchViewer message handler (lines 803-817): refresh, and with
at least CONFIG.minMangaImageCount images persist an auto winner, open
page 0 and answer success; otherwise answer
`success: false, reason: "insufficient_images"` without touching the
viewer. -/
def handleLaunchViewer (s : Session) (e : Env) : MsgResponse × Session × Env :=
  if CONFIG.minMangaImageCount ≤ (refresh s e).1.images.length then
    ({ success := true }, showPage0 (pinDetectedMode (refresh s e).1),
     (refresh s e).2.1)
  else
    ({ success := false, reason := some "insufficient_images" },
     (refresh s e).1, (refresh s e).2.1)

/-- The key order of the detectionMethods table of the testDetection
handler (lines 821-832); `Object.entries` iterates string keys in
insertion order. -/
def testDetectionOrder : List String :=
  ["auto", "smart", "deep-scan", "basic", "frame-reader", "reading-content",
   "chapter-content", "manga-reader", "entry-content", "niconico-seiga"]

/-- One entry of the detectionMethods table (lines 821-832): the auto
entry is the live detectWithAutoFallback (which writes
`state.detectedMode`), every other entry runs its strategy without
touching the session. -/
def testMethodRun (s : Session) (n : String) (e : Env) : Nat × Session × Env :=
  if n = "auto" then
    ((detectWithAutoFallback s e).1.length, (detectWithAutoFallback s e).2.1,
     (detectWithAutoFallback s e).2.2)
  else
    ((strategyRun s.niconicoThreshold n e).1.length, s,
     (strategyRun s.niconicoThreshold n e).2)

/-- The results loop of the testDetection handler (lines 834-836),
threading the DOM mutations of each method into the next. -/
def testLoop : List String → Session → Env → List (String × Nat) × Session × Env
  | [], s, e => ([], s, e)
  | n :: rest, s, e =>
    ((n, (testMethodRun s n e).1) ::
       (testLoop rest (testMethodRun s n e).2.1 (testMethodRun s n e).2.2).1,
     (testLoop rest (testMethodRun s n e).2.1 (testMethodRun s n e).2.2).2)

/-- The testDetection message handler (lines 819-839). -/
def handleTestDetection (s : Session) (e : Env) : MsgResponse × Session × Env :=
  ({ success := true, results := (testLoop testDetectionOrder s e).1 },
   (testLoop testDetectionOrder s e).2.1, (testLoop testDetectionOrder s e).2.2)

/-- The updateDetectionMode message handler (lines 846-848). -/
def handleUpdateDetectionMode (s : Session) (mode : String) : Session :=
  { s with detectionMode := mode }

/-- The environment after one strategy of the auto loop has been tried
(and its mutations applied) or skipped. -/
def stepEnv (th : ℚ) (n : String) (e : Env) : Env :=
  if strategyCondition n e then (strategyRun th n e).2 else e

/-- The environment after a whole list of strategies has been tried. -/
def envAfter (th : ℚ) : List String → Env → Env
  | [], e => e
  | n :: rest, e => envAfter th rest (stepEnv th n e)

/-- Every applicable strategy of the list stays below the acceptance
count, at the environment point where the loop would run it. -/
def allBelow (th : ℚ) : List String → Env → Prop
  | [], _ => True
  | n :: rest, e =>
    (strategyCondition n e = true →
      (strategyRun th n e).1.length < CONFIG.minMangaImageCount) ∧
    allBelow th rest (stepEnv th n e)

/-- The Prop-level change test of the claim: the lists differ in length or
in identity at some position. -/
def imagesDiffer (old new : List Img) : Prop :=
  new.length ≠ old.length ∨ ∃ i, i < new.length ∧ old[i]? ≠ new[i]?

/-! ### Concrete pages used as witnesses and counterexamples -/

/-- A loaded, full-page manga image. -/
def imgP1 : Img :=
  { src := "https://e.example/page1.jpg", complete := true, naturalWidth := 800,
    naturalHeight := 1200, rectTop := 0 }

/-- A second loaded, full-page manga image. -/
def imgP2 : Img :=
  { src := "https://e.example/page2.jpg", complete := true, naturalWidth := 800,
    naturalHeight := 1200, rectTop := 10 }

/-- A page with two qualifying document images. -/
def envTwoImgs : Env := { imgs := [imgP1, imgP2] }

/-- An empty page: no images, canvases, iframes, resources or markup
matches. -/
def envEmpty : Env := {}

/-- A fresh session: auto mode, nothing detected yet. -/
def sessionDefault : Session := {}

/-- Two distinct `.reading-content` images sharing one URL. -/
def selImgA : Img :=
  { src := "https://e.example/dup.jpg", complete := true, naturalWidth := 800,
    naturalHeight := 1200, rectTop := 0, containers := ["reading-content"] }

/-- The second element: same URL, different position. -/
def selImgB : Img := { selImgA with rectTop := 50 }

/-- A page whose `.reading-content` holds two images with the same URL. -/
def envSelectorDup : Env := { imgs := [selImgA, selImgB] }

/-- Two distinct document images sharing one URL. -/
def dupImgA : Img :=
  { src := "https://e.example/same.jpg", complete := true, naturalWidth := 800,
    naturalHeight := 1200, rectTop := 0 }

/-- The second element: same URL, different position. -/
def dupImgB : Img := { dupImgA with rectTop := 30 }

/-- A page with two qualifying document images sharing one URL. -/
def envDupUrl : Env := { imgs := [dupImgA, dupImgB] }

/-- A page with a single qualifying document image. -/
def envSingleQual : Env := { imgs := [imgP1] }

/-- A session with a previously recorded detected mode. -/
def sessionDetected : Session := { detectedMode := some "basic" }

/-- A 500×400 canvas whose buffer is 40000 fully transparent pixels
followed by 160000 opaque ones: transparency fraction exactly 1/5. -/
def canvasPage : Canvas :=
  { width := 500, height := 400,
    data := List.replicate (4 * 40000) 0 ++ List.replicate (4 * 160000) 255,
    dataUrl := some "data:image/png;base64,AAAA" }

/-- A page holding just `canvasPage`. -/
def envCanvas : Env := { canvases := [canvasPage] }

/-! ### De-duplication and sorting lemmas -/

lemma mem_dedupeByKey_not_seen {α : Type} {key : α → String} :
    ∀ (l : List α) (seen : List String) (x : α),
      x ∈ dedupeByKey key seen l → key x ∉ seen := by
  intro l
  induction l with
  | nil => intro seen x hx; simp [dedupeByKey] at hx
  | cons y t ih =>
    intro seen x hx
    by_cases hy : key y ∈ seen
    · rw [dedupeByKey, if_pos hy] at hx
      exact ih seen x hx
    · rw [dedupeByKey, if_neg hy] at hx
      rcases List.mem_cons.mp hx with h | h
      · subst h; exact hy
      · intro hmem
        exact ih (key y :: seen) x h (List.mem_cons_of_mem _ hmem)

lemma dedupeByKey_map_nodup {α : Type} {key : α → String} :
    ∀ (l : List α) (seen : List String),
      ((dedupeByKey key seen l).map key).Nodup := by
  intro l
  induction l with
  | nil => intro seen; simp [dedupeByKey]
  | cons y t ih =>
    intro seen
    by_cases hy : key y ∈ seen
    · rw [dedupeByKey, if_pos hy]; exact ih seen
    · rw [dedupeByKey, if_neg hy]
      refine List.nodup_cons.mpr ⟨?_, ih (key y :: seen)⟩
      intro hmem
      rcases List.mem_map.mp hmem with ⟨x, hx, hkx⟩
      exact mem_dedupeByKey_not_seen t (key y :: seen) x hx
        (hkx ▸ List.mem_cons_self _ _)

lemma insertImg_perm (a : Img) :
    ∀ l : List Img, List.Perm (insertImg a l) (a :: l) := by
  intro l
  induction l with
  | nil => exact List.Perm.refl _
  | cons b t ih =>
    rw [insertImg]
    by_cases h : imgCmp a b ≤ 0
    · rw [if_pos h]
    · rw [if_neg h]
      exact (List.Perm.cons b ih).trans (List.Perm.swap a b t)

lemma sortImagesByPosition_perm :
    ∀ l : List Img, List.Perm (sortImagesByPosition l) l := by
  intro l
  induction l with
  | nil => exact List.Perm.refl _
  | cons a t ih =>
    rw [sortImagesByPosition]
    exact (insertImg_perm a (sortImagesByPosition t)).trans (List.Perm.cons a ih)

lemma filterAndSortImages_src_nodup (l : List Img) :
    ((filterAndSortImages l).map Img.src).Nodup := by
  rw [filterAndSortImages]
  by_cases h : l.length < CONFIG.minMangaImageCount
  · rw [if_pos h]; simp
  · rw [if_neg h]
    have hperm := (sortImagesByPosition_perm (dedupeByKey Img.src [] l)).map Img.src
    exact hperm.nodup_iff.mpr (dedupeByKey_map_nodup l [])

lemma mapWithIndex_map_src (f : String → Nat → Img)
    (h : ∀ u i, (f u i).src = u) :
    ∀ (l : List String) (i : Nat), (mapWithIndex f l i).map Img.src = l := by
  intro l
  induction l with
  | nil => intro i; rfl
  | cons u t ih => intro i; simp [mapWithIndex, h, ih]

/-! ### Idempotence of the in-place src rewrites -/

lemma firstCandidate_ne_empty {img : Img} {c : String}
    (h : firstCandidate img = some c) : c ≠ "" := by
  rcases List.exists_of_findSome?_eq_some h with ⟨o, _, ho⟩
  by_cases ht : jsTruthy o
  · rw [if_pos ht] at ho
    subst ho
    simpa [jsTruthy] using ht
  · rw [if_neg ht] at ho
    exact absurd ho (by simp)

lemma normalizeStep1_of_src_ne {img : Img} (h : img.src ≠ "") :
    normalizeStep1 img = img := by
  rw [normalizeStep1, if_neg h]

lemma normalizeStep2_of_src_ne {img : Img} (h : img.src ≠ "") :
    normalizeStep2 img = img := by
  rw [normalizeStep2, if_neg (fun hc => h hc.1)]

lemma normalizeStep1_cases (img : Img) :
    normalizeStep1 img = img ∨ (normalizeStep1 img).src ≠ "" := by
  by_cases h : img.src = ""
  · rw [normalizeStep1, if_pos h]
    cases hc : firstCandidate img with
    | some c =>
      right
      simpa using firstCandidate_ne_empty hc
    | none => left; rfl
  · left; exact normalizeStep1_of_src_ne h

lemma normalizeStep2_cases (img : Img) :
    normalizeStep2 img = img ∨ (normalizeStep2 img).src ≠ "" := by
  by_cases h : img.src = "" ∧ img.srcset ≠ ""
  · rw [normalizeStep2, if_pos h]
    by_cases h3 : srcsetFallback img ≠ ""
    · right; rw [if_pos h3]; simpa using h3
    · left; rw [if_neg h3]
  · left; rw [normalizeStep2, if_neg h]

lemma normalizeImageSrc_of_src_ne {img : Img} (h : img.src ≠ "") :
    normalizeImageSrc img = img := by
  rw [normalizeImageSrc, normalizeStep1_of_src_ne h, normalizeStep2_of_src_ne h]

lemma normalizeImageSrc_cases (img : Img) :
    normalizeImageSrc img = img ∨ (normalizeImageSrc img).src ≠ "" := by
  rcases normalizeStep1_cases img with h1 | h1
  · rw [normalizeImageSrc, h1]
    exact normalizeStep2_cases img
  · right
    rw [normalizeImageSrc, normalizeStep2_of_src_ne h1]
    exact h1

lemma normalizeImageSrc_idem (img : Img) :
    normalizeImageSrc (normalizeImageSrc img) = normalizeImageSrc img := by
  rcases normalizeImageSrc_cases img with h | h
  · rw [h, h]
  · exact normalizeImageSrc_of_src_ne h

lemma map_normalize_idem (l : List Img) :
    (l.map normalizeImageSrc).map normalizeImageSrc = l.map normalizeImageSrc := by
  induction l with
  | nil => rfl
  | cons i t ih => simp only [List.map_cons, normalizeImageSrc_idem, ih]

lemma jsTruthy_getD_ne {o : Option String} (h : jsTruthy o) : o.getD "" ≠ "" := by
  cases o with
  | none => simp [jsTruthy] at h
  | some s => simpa [jsTruthy] using h

lemma promoteDataSrc_of_src_ne {img : Img} (h : img.src ≠ "") :
    promoteDataSrc img = img := by
  rw [promoteDataSrc, if_neg (fun hc => h hc.1)]

lemma promoteDataSrc_cases (img : Img) :
    promoteDataSrc img = img ∨ (promoteDataSrc img).src ≠ "" := by
  by_cases h : img.src = "" ∧ jsTruthy img.dsSrc
  · right
    rw [promoteDataSrc, if_pos h]
    simpa using jsTruthy_getD_ne h.2
  · left; rw [promoteDataSrc, if_neg h]

lemma promoteDataSrc_idem (img : Img) :
    promoteDataSrc (promoteDataSrc img) = promoteDataSrc img := by
  rcases promoteDataSrc_cases img with h | h
  · rw [h, h]
  · exact promoteDataSrc_of_src_ne h

lemma promoteDataSrc_containers (img : Img) :
    (promoteDataSrc img).containers = img.containers := by
  by_cases h : img.src = "" ∧ jsTruthy img.dsSrc
  · rw [promoteDataSrc, if_pos h]
  · rw [promoteDataSrc, if_neg h]

lemma applyResolved_not_writable {img : Img} (hw : ¬ img.srcWritable = true)
    (o : Option String) : applyResolved img o = img := by
  cases o with
  | none => rfl
  | some full => rw [applyResolved, if_neg hw]

lemma iframeCandidate_applyResolved (img : Img) (o : Option String) :
    iframeCandidate (applyResolved img o) = iframeCandidate img := by
  cases o with
  | none => rfl
  | some full =>
    rw [applyResolved]
    by_cases hw : img.srcWritable = true
    · rw [if_pos hw]; rfl
    · rw [if_neg hw]

lemma iframeCandidate_resolve (r : String → String → Option String)
    (fs : String) (img : Img) :
    iframeCandidate (resolveIframeImg r fs img) = iframeCandidate img := by
  rw [resolveIframeImg]
  by_cases h : leadsWith img.src.data "http".data = true
  · rw [if_pos h]
  · rw [if_neg h]
    exact iframeCandidate_applyResolved img (r img.src fs)

lemma resolveIframeImg_idem (r : String → String → Option String)
    (fs : String) (img : Img) :
    resolveIframeImg r fs (resolveIframeImg r fs img) =
      resolveIframeImg r fs img := by
  by_cases h : leadsWith img.src.data "http".data = true
  · have hin : resolveIframeImg r fs img = img := by
      rw [resolveIframeImg, if_pos h]
    rw [hin]
    exact hin
  · have hin : resolveIframeImg r fs img = applyResolved img (r img.src fs) := by
      rw [resolveIframeImg, if_neg h]
    rw [hin]
    cases hr : r img.src fs with
    | none =>
      rw [applyResolved, resolveIframeImg, if_neg h, hr, applyResolved]
    | some full =>
      rw [applyResolved]
      by_cases hw : img.srcWritable = true
      · rw [if_pos hw]
        by_cases h2 :
            leadsWith ({ img with src := full, srcWritable := false } : Img).src.data
              "http".data = true
        · rw [resolveIframeImg, if_pos h2]
        · rw [resolveIframeImg, if_neg h2]
          exact applyResolved_not_writable (by simp) _
      · rw [if_neg hw, resolveIframeImg, if_neg h, hr]
        exact applyResolved_not_writable hw _

lemma iframeStep_idem (r : String → String → Option String)
    (fs : String) (img : Img) :
    iframeStep r fs (iframeStep r fs img) = iframeStep r fs img := by
  by_cases h : iframeCandidate img = true
  · have hs : iframeStep r fs img = resolveIframeImg r fs img := by
      rw [iframeStep, if_pos h]
    rw [hs, iframeStep, if_pos (by rw [iframeCandidate_resolve]; exact h)]
    exact resolveIframeImg_idem r fs img
  · have hs : iframeStep r fs img = img := by rw [iframeStep, if_neg h]
    rw [hs]
    exact hs

lemma map_iframeStep_idem (r : String → String → Option String)
    (fs : String) (l : List Img) :
    (l.map (iframeStep r fs)).map (iframeStep r fs) = l.map (iframeStep r fs) := by
  induction l with
  | nil => rfl
  | cons i t ih => simp only [List.map_cons, iframeStep_idem, ih]

lemma filter_map_iframeStep (r : String → String → Option String)
    (fs : String) (l : List Img) :
    (l.map (iframeStep r fs)).filter iframeCandidate =
      (l.filter iframeCandidate).map (resolveIframeImg r fs) := by
  induction l with
  | nil => rfl
  | cons i t ih =>
    by_cases h : iframeCandidate i = true
    · rw [List.map_cons, List.filter_cons, List.filter_cons, if_pos h,
        iframeStep, if_pos h, if_pos (by rw [iframeCandidate_resolve]; exact h),
        List.map_cons, ih]
    · rw [List.map_cons, List.filter_cons, List.filter_cons,
        if_neg h, iframeStep, if_neg h, if_neg h, ih]

lemma map_resolve_idem (r : String → String → Option String)
    (fs : String) (l : List Img) :
    (l.map (resolveIframeImg r fs)).map (resolveIframeImg r fs) =
      l.map (resolveIframeImg r fs) := by
  induction l with
  | nil => rfl
  | cons i t ih => simp only [List.map_cons, resolveIframeImg_idem, ih]

/-! ### Idempotence of the individual strategies -/

lemma detectFromDocument_idem (e : Env) :
    (detectFromDocument (detectFromDocument e).2).1 = (detectFromDocument e).1 := by
  simp only [detectFromDocument, potentialImages]
  rw [map_normalize_idem]

lemma selectorStep_idem (cls : String) (ds : Bool) (img : Img) :
    selectorStep cls ds (selectorStep cls ds img) = selectorStep cls ds img := by
  by_cases h : (ds && img.containers.contains cls) = true
  · have hs : selectorStep cls ds img = promoteDataSrc img := by
      rw [selectorStep, if_pos h]
    rw [hs, selectorStep,
      if_pos (by rw [promoteDataSrc_containers]; exact h)]
    exact promoteDataSrc_idem img
  · have hs : selectorStep cls ds img = img := by rw [selectorStep, if_neg h]
    rw [hs]
    exact hs

lemma map_selectorStep_idem (cls : String) (ds : Bool) (l : List Img) :
    (l.map (selectorStep cls ds)).map (selectorStep cls ds) =
      l.map (selectorStep cls ds) := by
  induction l with
  | nil => rfl
  | cons i t ih => simp only [List.map_cons, selectorStep_idem, ih]

lemma detectBySelector_idem (name : String) (e : Env) :
    (detectBySelector name (detectBySelector name e).2).1 =
      (detectBySelector name e).1 := by
  cases hc : detectionModeSelector name with
  | none => simp only [detectBySelector, hc]
  | some p =>
    obtain ⟨cls, ds⟩ := p
    simp only [detectBySelector, hc]
    rw [map_selectorStep_idem]

lemma detectFromIframe_idem (e : Env) :
    (detectFromIframe (detectFromIframe e).2).1 = (detectFromIframe e).1 := by
  cases hf : e.iframe with
  | none => simp only [detectFromIframe, hf]
  | some f =>
    by_cases ha : f.accessible = true
    · cases hd : f.docImgs with
      | none => simp only [detectFromIframe, hf, ha, hd, ite_true]
      | some l =>
        simp only [detectFromIframe, hf, ha, hd, ite_true]
        rw [filter_map_iframeStep, map_resolve_idem]
    · simp only [detectFromIframe, hf, if_neg ha]

lemma detectFromResources_idem (e : Env) :
    (detectFromResources (detectFromResources e).2).1 = (detectFromResources e).1 := rfl

lemma detectFromTextScan_idem (e : Env) :
    (detectFromTextScan (detectFromTextScan e).2).1 = (detectFromTextScan e).1 := rfl

lemma extractFromCanvas_idem (th : ℚ) (e : Env) :
    (extractFromCanvas th (extractFromCanvas th e).2).1 = (extractFromCanvas th e).1 := rfl

lemma strategyRun_idem (th : ℚ) (name : String) (e : Env) :
    (strategyRun th name (strategyRun th name e).2).1 = (strategyRun th name e).1 := by
  by_cases h1 : name = "basic"
  · have hd : ∀ e2 : Env, strategyRun th name e2 = detectFromDocument e2 := by
      intro e2; rw [strategyRun, if_pos h1]
    rw [hd, hd]
    exact detectFromDocument_idem e
  · by_cases h2 : name = "smart"
    · have hd : ∀ e2 : Env, strategyRun th name e2 = detectFromResources e2 := by
        intro e2; rw [strategyRun, if_neg h1, if_pos h2]
      rw [hd, hd]
      exact detectFromResources_idem e
    · by_cases h3 : name = "deep-scan"
      · have hd : ∀ e2 : Env, strategyRun th name e2 = detectFromTextScan e2 := by
          intro e2; rw [strategyRun, if_neg h1, if_neg h2, if_pos h3]
        rw [hd, hd]
        exact detectFromTextScan_idem e
      · by_cases h4 : name = "frame-reader"
        · have hd : ∀ e2 : Env, strategyRun th name e2 = detectFromIframe e2 := by
            intro e2; rw [strategyRun, if_neg h1, if_neg h2, if_neg h3, if_pos h4]
          rw [hd, hd]
          exact detectFromIframe_idem e
        · by_cases h5 : name = "niconico-seiga"
          · have hd : ∀ e2 : Env, strategyRun th name e2 = extractFromCanvas th e2 := by
              intro e2
              rw [strategyRun, if_neg h1, if_neg h2, if_neg h3, if_neg h4, if_pos h5]
            rw [hd, hd]
            exact extractFromCanvas_idem th e
          · have hd : ∀ e2 : Env, strategyRun th name e2 = detectBySelector name e2 := by
              intro e2
              rw [strategyRun, if_neg h1, if_neg h2, if_neg h3, if_neg h4, if_neg h5]
            rw [hd, hd]
            exact detectBySelector_idem name e

/-! ### The auto-fallback loop, characterized -/

lemma autoLoop_char (th : ℚ) :
    ∀ (names : List String) (e : Env),
      ((autoLoop th names e).2.1 = none ∧ (autoLoop th names e).1 = [] ∧
        allBelow th names e) ∨
      (∃ pre n post, names = pre ++ n :: post ∧ allBelow th pre e ∧
        strategyCondition n (envAfter th pre e) = true ∧
        (autoLoop th names e).1 = (strategyRun th n (envAfter th pre e)).1 ∧
        CONFIG.minMangaImageCount ≤ (autoLoop th names e).1.length ∧
        (autoLoop th names e).2.1 = some n) := by
  intro names
  induction names with
  | nil =>
    intro e
    left
    exact ⟨rfl, rfl, trivial⟩
  | cons n rest ih =>
    intro e
    by_cases hc : strategyCondition n e = true
    · by_cases hlen : CONFIG.minMangaImageCount ≤ (strategyRun th n e).1.length
      · right
        have heq : autoLoop th (n :: rest) e =
            ((strategyRun th n e).1, some n, (strategyRun th n e).2) := by
          rw [autoLoop, if_pos hc, if_pos hlen]
        refine ⟨[], n, rest, rfl, trivial, hc, ?_, ?_, ?_⟩
        · rw [heq]; rfl
        · rw [heq]; exact hlen
        · rw [heq]
      · have heq : autoLoop th (n :: rest) e =
            autoLoop th rest (strategyRun th n e).2 := by
          rw [autoLoop, if_pos hc, if_neg hlen]
        have hstep : stepEnv th n e = (strategyRun th n e).2 := by
          rw [stepEnv, if_pos hc]
        rcases ih (strategyRun th n e).2 with ⟨hm, hi, hb⟩ |
          ⟨pre, m, post, hsplit, hb, hcnd, him, hlen2, hm⟩
        · left
          refine ⟨by rw [heq]; exact hm, by rw [heq]; exact hi, ?_, ?_⟩
          · exact fun _ => Nat.lt_of_not_le hlen
          · rw [hstep]; exact hb
        · right
          refine ⟨n :: pre, m, post, by rw [List.cons_append, hsplit], ?_, ?_, ?_, ?_, ?_⟩
          · exact ⟨fun _ => Nat.lt_of_not_le hlen, by rw [hstep]; exact hb⟩
          · rw [envAfter, hstep]; exact hcnd
          · rw [heq, envAfter, hstep]; exact him
          · rw [heq]; exact hlen2
          · rw [heq]; exact hm
    · have heq : autoLoop th (n :: rest) e = autoLoop th rest e := by
        rw [autoLoop, if_neg hc]
      have hstep : stepEnv th n e = e := by rw [stepEnv, if_neg hc]
      rcases ih e with ⟨hm, hi, hb⟩ |
        ⟨pre, m, post, hsplit, hb, hcnd, him, hlen2, hm⟩
      · left
        refine ⟨by rw [heq]; exact hm, by rw [heq]; exact hi, ?_, ?_⟩
        · exact fun hcc => absurd hcc hc
        · rw [hstep]; exact hb
      · right
        refine ⟨n :: pre, m, post, by rw [List.cons_append, hsplit], ?_, ?_, ?_, ?_, ?_⟩
        · exact ⟨fun hcc => absurd hcc hc, by rw [hstep]; exact hb⟩
        · rw [envAfter, hstep]; exact hcnd
        · rw [heq, envAfter, hstep]; exact him
        · rw [heq]; exact hlen2
        · rw [heq]; exact hm

lemma allBelow_append (th : ℚ) :
    ∀ (l1 l2 : List String) (e : Env),
      allBelow th (l1 ++ l2) e ↔
        allBelow th l1 e ∧ allBelow th l2 (envAfter th l1 e) := by
  intro l1
  induction l1 with
  | nil => intro l2 e; simp [allBelow, envAfter]
  | cons n t ih =>
    intro l2 e
    rw [List.cons_append, allBelow, allBelow, envAfter, ih, and_assoc]

lemma autoLoop_winner_length (th : ℚ) (names : List String) (e : Env) (n : String)
    (h : (autoLoop th names e).2.1 = some n) :
    CONFIG.minMangaImageCount ≤ (autoLoop th names e).1.length := by
  rcases autoLoop_char th names e with ⟨hm, _, _⟩ |
    ⟨pre, m, post, _, _, _, _, hlen, _⟩
  · rw [h] at hm; exact absurd hm (by simp)
  · exact hlen

/-! ### The iframe presence is invariant under strategy runs -/

lemma detectBySelector_env_iframe (name : String) (e : Env) :
    ((detectBySelector name e).2).iframe = e.iframe := by
  cases hc : detectionModeSelector name with
  | none => simp only [detectBySelector, hc]
  | some p =>
    obtain ⟨cls, ds⟩ := p
    simp only [detectBySelector, hc]

lemma detectFromIframe_env_isSome (e : Env) :
    ((detectFromIframe e).2).iframe.isSome = e.iframe.isSome := by
  cases hf : e.iframe with
  | none => simp only [detectFromIframe, hf]
  | some f =>
    by_cases ha : f.accessible = true
    · cases hd : f.docImgs with
      | none => simp only [detectFromIframe, hf, ha, hd, ite_true]
      | some l => simp only [detectFromIframe, hf, ha, hd, ite_true, Option.isSome_some]
    · simp only [detectFromIframe, hf, if_neg ha]

lemma strategyRun_env_iframe_isSome (th : ℚ) (name : String) (e : Env) :
    ((strategyRun th name e).2).iframe.isSome = e.iframe.isSome := by
  by_cases h1 : name = "basic"
  · rw [strategyRun, if_pos h1]; rfl
  · by_cases h2 : name = "smart"
    · rw [strategyRun, if_neg h1, if_pos h2]; rfl
    · by_cases h3 : name = "deep-scan"
      · rw [strategyRun, if_neg h1, if_neg h2, if_pos h3]; rfl
      · by_cases h4 : name = "frame-reader"
        · rw [strategyRun, if_neg h1, if_neg h2, if_neg h3, if_pos h4]
          exact detectFromIframe_env_isSome e
        · by_cases h5 : name = "niconico-seiga"
          · rw [strategyRun, if_neg h1, if_neg h2, if_neg h3, if_neg h4, if_pos h5]; rfl
          · rw [strategyRun, if_neg h1, if_neg h2, if_neg h3, if_neg h4, if_neg h5,
              detectBySelector_env_iframe]

lemma stepEnv_iframe_isSome (th : ℚ) (n : String) (e : Env) :
    (stepEnv th n e).iframe.isSome = e.iframe.isSome := by
  rw [stepEnv]
  by_cases hc : strategyCondition n e = true
  · rw [if_pos hc]; exact strategyRun_env_iframe_isSome th n e
  · rw [if_neg hc]

lemma envAfter_iframe_isSome (th : ℚ) :
    ∀ (l : List String) (e : Env),
      (envAfter th l e).iframe.isSome = e.iframe.isSome := by
  intro l
  induction l with
  | nil => intro e; rfl
  | cons n t ih =>
    intro e
    rw [envAfter, ih, stepEnv_iframe_isSome]

/-! ### Session bookkeeping of detect, refresh and the handlers -/

lemma detectByMode_session_shape (s : Session) (mode : String) (e : Env) :
    ∃ m, (detectByMode s mode e).2.1 = { s with detectedMode := m } := by
  rw [detectByMode]
  split
  · exact ⟨(autoLoop s.niconicoThreshold strategyOrder e).2.1, rfl⟩
  · split
    · exact ⟨s.detectedMode, rfl⟩
    · exact ⟨s.detectedMode, rfl⟩

lemma detect_session_shape (s : Session) (e : Env) :
    ∃ m, (detect s e).2.1 = { s with detectedMode := m } := by
  rw [detect]
  split
  · exact detectByMode_session_shape s s.detectionMode e
  · exact ⟨(autoLoop s.niconicoThreshold strategyOrder e).2.1, rfl⟩

lemma detect_of_auto (s : Session) (e : Env) (h : s.detectionMode = "auto") :
    detect s e = detectWithAutoFallback s e := by
  rw [detect, if_neg (fun hc => hc h)]

lemma imagesChangedB_false_length (old new : List Img)
    (h : imagesChangedB old new = false) : new.length = old.length := by
  rw [imagesChangedB, Bool.or_eq_false_iff] at h
  simpa using h.1

lemma imagesChangedB_iff (old new : List Img) :
    imagesChangedB old new = true ↔ imagesDiffer old new := by
  rw [imagesChangedB, imagesDiffer]
  simp only [Bool.or_eq_true, bne_iff_ne, ne_eq, List.any_eq_true, List.mem_range]

lemma refresh_fst_detectedMode (s : Session) (e : Env) :
    (refresh s e).1.detectedMode = (detect s e).2.1.detectedMode := by
  rw [refresh]
  by_cases hch : imagesChangedB s.images (detect s e).1 = true
  · rw [if_pos hch]
  · rw [if_neg hch]

lemma refresh_fst_detectionMode (s : Session) (e : Env) :
    (refresh s e).1.detectionMode = s.detectionMode := by
  obtain ⟨m, hm⟩ := detect_session_shape s e
  rw [refresh]
  by_cases hch : imagesChangedB s.images (detect s e).1 = true
  · rw [if_pos hch]; rw [hm]
  · rw [if_neg hch]; rw [hm]

lemma refresh_fst_viewerVisible (s : Session) (e : Env) :
    (refresh s e).1.viewerVisible = s.viewerVisible := by
  obtain ⟨m, hm⟩ := detect_session_shape s e
  rw [refresh]
  by_cases hch : imagesChangedB s.images (detect s e).1 = true
  · rw [if_pos hch]; rw [hm]
  · rw [if_neg hch]; rw [hm]

lemma refresh_fst_currentPage (s : Session) (e : Env) :
    (refresh s e).1.currentPage = s.currentPage := by
  obtain ⟨m, hm⟩ := detect_session_shape s e
  rw [refresh]
  by_cases hch : imagesChangedB s.images (detect s e).1 = true
  · rw [if_pos hch]; rw [hm]
  · rw [if_neg hch]; rw [hm]

lemma refresh_images_length (s : Session) (e : Env) :
    (refresh s e).1.images.length = (detect s e).1.length := by
  obtain ⟨m, hm⟩ := detect_session_shape s e
  rw [refresh]
  by_cases hch : imagesChangedB s.images (detect s e).1 = true
  · rw [if_pos hch]
  · rw [if_neg hch, hm]
    have hf : imagesChangedB s.images (detect s e).1 = false :=
      Bool.eq_false_iff.mpr hch
    exact (imagesChangedB_false_length _ _ hf).symm

lemma showPage0_images (s : Session) : (showPage0 s).images = s.images := by
  rw [showPage0]
  by_cases h : s.images.length = 0
  · rw [if_pos h]
  · rw [if_neg h]

lemma showPage0_storedDetectionMode (s : Session) :
    (showPage0 s).storedDetectionMode = s.storedDetectionMode := by
  rw [showPage0]
  by_cases h : s.images.length = 0
  · rw [if_pos h]
  · rw [if_neg h]

lemma showPage0_detectionMode (s : Session) :
    (showPage0 s).detectionMode = s.detectionMode := by
  rw [showPage0]
  by_cases h : s.images.length = 0
  · rw [if_pos h]
  · rw [if_neg h]

lemma pinDetectedMode_images (s : Session) :
    (pinDetectedMode s).images = s.images := by
  rw [pinDetectedMode]
  by_cases h : s.detectedMode.isSome = true ∧ s.detectionMode = "auto"
  · rw [if_pos h]
  · rw [if_neg h]

lemma pinDetectedMode_viewerVisible (s : Session) :
    (pinDetectedMode s).viewerVisible = s.viewerVisible := by
  rw [pinDetectedMode]
  by_cases h : s.detectedMode.isSome = true ∧ s.detectionMode = "auto"
  · rw [if_pos h]
  · rw [if_neg h]

lemma pinDetectedMode_currentPage (s : Session) :
    (pinDetectedMode s).currentPage = s.currentPage := by
  rw [pinDetectedMode]
  by_cases h : s.detectedMode.isSome = true ∧ s.detectionMode = "auto"
  · rw [if_pos h]
  · rw [if_neg h]

lemma pinDetectedMode_of_winner (s : Session) (n : String)
    (h1 : s.detectedMode = some n) (h2 : s.detectionMode = "auto") :
    pinDetectedMode s =
      { s with storedDetectionMode := some n, detectionMode := n } := by
  rw [pinDetectedMode, if_pos ⟨by rw [h1]; rfl, h2⟩, h1]
  rfl

/-! ### The testDetection loop -/

lemma testLoop_keys :
    ∀ (names : List String) (s : Session) (e : Env),
      ((testLoop names s e).1).map Prod.fst = names := by
  intro names
  induction names with
  | nil => intro s e; rfl
  | cons n t ih =>
    intro s e
    rw [testLoop]
    simp only [List.map_cons, ih]

lemma testMethodRun_session_of_ne (s : Session) (n : String) (e : Env)
    (h : n ≠ "auto") : (testMethodRun s n e).2.1 = s := by
  rw [testMethodRun, if_neg h]

lemma testLoop_session_no_auto :
    ∀ (names : List String), "auto" ∉ names →
      ∀ (s : Session) (e : Env), (testLoop names s e).2.1 = s := by
  intro names
  induction names with
  | nil => intro _ s e; rfl
  | cons n t ih =>
    intro hmem s e
    rw [testLoop]
    have hn : n ≠ "auto" := fun hh => hmem (hh ▸ List.mem_cons_self _ _)
    have ht : "auto" ∉ t := fun hh => hmem (List.mem_cons_of_mem _ hh)
    rw [testMethodRun_session_of_ne s n e hn]
    exact ih ht s _

/-! ### Counting transparent pixels -/

lemma countTransparentFrom_append_replicate (v : Nat) :
    ∀ (k q : Nat) (rest : List Nat),
      countTransparentFrom (4 * q) (List.replicate (4 * k) v ++ rest) =
        (if v < CONFIG.niconicoTransparentAlpha then k else 0) +
          countTransparentFrom (4 * (q + k)) rest := by
  intro k
  induction k with
  | zero =>
    intro q rest
    simp [List.replicate]
  | succ k ih =>
    intro q rest
    rw [show 4 * (k + 1) = 4 * k + 1 + 1 + 1 + 1 by omega]
    rw [List.replicate_succ, List.replicate_succ, List.replicate_succ,
      List.replicate_succ, List.cons_append, List.cons_append,
      List.cons_append, List.cons_append]
    rw [countTransparentFrom, countTransparentFrom, countTransparentFrom,
      countTransparentFrom]
    rw [if_neg (fun hand => absurd hand.1 (by omega)),
      if_neg (fun hand => absurd hand.1 (by omega)),
      if_neg (fun hand => absurd hand.1 (by omega))]
    rw [show 4 * q + 1 + 1 + 1 + 1 = 4 * (q + 1) by omega, ih (q + 1) rest]
    rw [show 4 * (q + 1 + k) = 4 * (q + (k + 1)) by omega]
    by_cases hv : v < CONFIG.niconicoTransparentAlpha
    · rw [if_pos ⟨by omega, hv⟩, if_pos hv, if_pos hv]
      omega
    · rw [if_neg (fun hand => hv hand.2), if_neg hv, if_neg hv]
      omega

/-- When the pixel floor is met and the serialization succeeds, a canvas
is extracted iff its transparency fraction is strictly below the computed
threshold. -/
lemma canvasToImg_isSome_iff (th : ℚ) (i : Nat) (c : Canvas) (u : String)
    (hfloor : CONFIG.niconicoMinPixelCount ≤ c.width * c.height)
    (hurl : c.dataUrl = some u) :
    (canvasToImg th i c).isSome ↔ transparencyFraction c < th := by
  rw [canvasToImg, if_neg (Nat.not_lt.mpr hfloor)]
  by_cases ht : transparencyFraction c < th
  · rw [if_pos ht, hurl]
    simp [ht]
  · rw [if_neg ht]
    simp [ht]

lemma countTransparent_canvasPage : countTransparent canvasPage.data = 40000 := by
  show countTransparentFrom (4 * 0)
    (List.replicate (4 * 40000) 0 ++ List.replicate (4 * 160000) 255) = 40000
  rw [countTransparentFrom_append_replicate,
    ← List.append_nil (List.replicate (4 * 160000) (255 : Nat)),
    countTransparentFrom_append_replicate]
  norm_num [CONFIG.niconicoTransparentAlpha, countTransparentFrom]

lemma transparencyFraction_canvasPage : transparencyFraction canvasPage = 1/5 := by
  rw [transparencyFraction, countTransparent_canvasPage]
  norm_num [canvasPage]

lemma filterMap_singleton_of_some {α β : Type} (f : α → Option β) (p : α)
    (b : β) (hf : f p = some b) : (List.filterMap f [p]).length = 1 := by
  rw [List.filterMap_cons, hf]
  rfl

lemma detectByMode_unknown (s : Session) (mode : String) (e : Env)
    (h0 : mode ≠ "auto") (h1 : mode ∉ strategyOrder) :
    detectByMode s mode e =
      ((detectFromDocument e).1, s, (detectFromDocument e).2) := by
  rw [detectByMode, if_neg h0, if_neg h1]
  rfl

lemma mem_strategyOrder_mem_names (x : String) (h : x ∈ strategyOrder) :
    x ∈ detectionModeNames := by
  fin_cases h <;> decide

/-! ### The claims -/

/-- C1 (counterexample): the claim that every detection run is free of
duplicate sourceUrls fails on the selector-match strategies:
`detectBySelector` does not de-duplicate, so a `.reading-content` holding
two images with the same URL yields a result whose src list is not
nodup. -/
theorem c1_selector_duplicate_srcs :
    ¬ ((detectBySelector "reading-content" envSelectorDup).1.map Img.src).Nodup := by
  decide

/-- C1 (amended): the DOM scan and the text scan de-duplicate on
sourceUrl — their result lists never contain two entries with the same
src; the selector-match strategies and the resource-timing scan do not
de-duplicate. -/
theorem c1_dom_and_text_scan_unique_srcs (e : Env) :
    ((detectFromDocument e).1.map Img.src).Nodup ∧
    ((detectFromTextScan e).1.map Img.src).Nodup := by
  constructor
  · exact filterAndSortImages_src_nodup (potentialImages e)
  · simp only [detectFromTextScan]
    rw [mapWithIndex_map_src mkTextScanImg (fun u i => rfl)]
    refine List.Nodup.filter _ ?_
    have h := @dedupeByKey_map_nodup String id e.textScanMatches []
    rwa [List.map_id] at h

/-- C2: in auto-search mode the strategies are tried in the fixed order
basic, reading-content, chapter-content, manga-reader, entry-content,
smart, deep-scan, frame-reader (skipped without an iframe),
niconico-seiga; the result is the output of the first strategy reaching
minimumAcceptCount = 2 and that name becomes the session's detected mode;
when every strategy falls short the result is empty and the detected mode
is null — and a null detected mode conversely means every applicable
strategy fell short. -/
theorem c2_auto_fallback_order (s : Session) (e : Env)
    (h : s.detectionMode = "auto") :
    strategyOrder = ["basic", "reading-content", "chapter-content",
      "manga-reader", "entry-content", "smart", "deep-scan", "frame-reader",
      "niconico-seiga"] ∧
    ((detect s e).2.1.detectedMode = none →
      (detect s e).1 = [] ∧ allBelow s.niconicoThreshold strategyOrder e) ∧
    (allBelow s.niconicoThreshold strategyOrder e →
      (detect s e).1 = [] ∧ (detect s e).2.1.detectedMode = none) ∧
    (∀ n, (detect s e).2.1.detectedMode = some n →
      ∃ pre post, strategyOrder = pre ++ n :: post ∧
        allBelow s.niconicoThreshold pre e ∧
        strategyCondition n (envAfter s.niconicoThreshold pre e) = true ∧
        (detect s e).1 =
          (strategyRun s.niconicoThreshold n
            (envAfter s.niconicoThreshold pre e)).1 ∧
        CONFIG.minMangaImageCount ≤ (detect s e).1.length) ∧
    (e.iframe = none → (detect s e).2.1.detectedMode ≠ some "frame-reader") := by
  have hd := detect_of_auto s e h
  have hmode : (detect s e).2.1.detectedMode =
      (autoLoop s.niconicoThreshold strategyOrder e).2.1 := by
    rw [hd]; rfl
  have himgs : (detect s e).1 = (autoLoop s.niconicoThreshold strategyOrder e).1 := by
    rw [hd]; rfl
  refine ⟨rfl, ?_, ?_, ?_, ?_⟩
  · intro hnone
    rw [hmode] at hnone
    rcases autoLoop_char s.niconicoThreshold strategyOrder e with ⟨_, hi, hb⟩ |
      ⟨pre, m, post, _, _, _, _, _, hm⟩
    · exact ⟨by rw [himgs, hi], hb⟩
    · rw [hm] at hnone
      exact absurd hnone (by simp)
  · intro hall
    rcases autoLoop_char s.niconicoThreshold strategyOrder e with ⟨hm, hi, _⟩ |
      ⟨pre, m, post, hsplit, _, hcnd, him, hlen, _⟩
    · exact ⟨by rw [himgs, hi], by rw [hmode, hm]⟩
    · exfalso
      rw [hsplit, allBelow_append] at hall
      have h3 := (hall.2).1 hcnd
      rw [him] at hlen
      omega
  · intro n hsome
    rw [hmode] at hsome
    rcases autoLoop_char s.niconicoThreshold strategyOrder e with ⟨hm, _, _⟩ |
      ⟨pre, m, post, hsplit, hb, hcnd, him, hlen, hm⟩
    · rw [hm] at hsome
      exact absurd hsome (by simp)
    · rw [hm] at hsome
      obtain rfl := Option.some.inj hsome
      exact ⟨pre, post, hsplit, hb, hcnd, by rw [himgs, him],
        by rw [himgs]; exact hlen⟩
  · intro hnone hfr
    rw [hmode] at hfr
    rcases autoLoop_char s.niconicoThreshold strategyOrder e with ⟨hm, _, _⟩ |
      ⟨pre, m, post, _, _, hcnd, _, _, hm⟩
    · rw [hm] at hfr
      exact absurd hfr (by simp)
    · rw [hm] at hfr
      obtain rfl := Option.some.inj hfr
      rw [strategyCondition, if_pos rfl] at hcnd
      rw [envAfter_iframe_isSome, hnone] at hcnd
      simp at hcnd

/-- C2 witness: the strategy table of the auto loop is the claimed nine
names in order (the hypotheses discharged at a fresh auto-mode session on
the empty page). -/
theorem c2_auto_fallback_order_witness :
    strategyOrder = ["basic", "reading-content", "chapter-content",
      "manga-reader", "entry-content", "smart", "deep-scan", "frame-reader",
      "niconico-seiga"] :=
  (c2_auto_fallback_order sessionDefault envEmpty rfl).1

/-- C3 (counterexample): the claim says a canvas with transparency
fraction 0.2 is rejected at acceptThreshold 0.2; the code accepts it,
since 0.2 < 1 − 0.2 = 0.8 — a 500×400 canvas with fraction 1/5 is
extracted at user threshold 1/5. -/
theorem c3_accepted_at_threshold_point_two :
    (extractFromCanvas (1/5) envCanvas).1.length = 1 := by
  have hc : canvasToImg (1 - 1/5) 0 canvasPage =
      some { src := "data:image/png;base64,AAAA", canvasIndex := some 0,
             isNiconicoCanvas := true } := by
    rw [canvasToImg,
      if_neg (by norm_num [canvasPage, CONFIG.niconicoMinPixelCount]),
      if_pos (by rw [transparencyFraction_canvasPage]; norm_num)]
    rfl
  have hlist : (extractFromCanvas (1/5) envCanvas).1 =
      List.filterMap (fun p => canvasToImg (1 - 1/5) p.1 p.2)
        [((0 : Nat), canvasPage)] := rfl
  rw [hlist]
  exact filterMap_singleton_of_some _ _ _ hc

/-- C3 (amended): for a canvas passing the pixel floor whose serialization
succeeds, the canvas is accepted iff transparentFraction < 1 −
acceptThreshold; a canvas with fraction 0.2 is accepted at threshold 0.65
and also at threshold 0.2 (0.2 < 0.8), and a canvas exactly at the
boundary fraction = 1 − threshold is rejected. -/
theorem c3_canvas_acceptance (a : ℚ) (i : Nat) (c : Canvas) (u : String)
    (hfloor : CONFIG.niconicoMinPixelCount ≤ c.width * c.height)
    (hurl : c.dataUrl = some u) :
    ((canvasToImg (1 - a) i c).isSome ↔ transparencyFraction c < 1 - a) ∧
    (transparencyFraction c = 1/5 → (canvasToImg (1 - 13/20) i c).isSome) ∧
    (transparencyFraction c = 1/5 → (canvasToImg (1 - 1/5) i c).isSome) ∧
    (transparencyFraction c = 1 - a → ¬ (canvasToImg (1 - a) i c).isSome) := by
  refine ⟨canvasToImg_isSome_iff (1 - a) i c u hfloor hurl, ?_, ?_, ?_⟩
  · intro ht
    exact (canvasToImg_isSome_iff (1 - 13/20) i c u hfloor hurl).mpr
      (by rw [ht]; norm_num)
  · intro ht
    exact (canvasToImg_isSome_iff (1 - 1/5) i c u hfloor hurl).mpr
      (by rw [ht]; norm_num)
  · intro ht hacc
    have := (canvasToImg_isSome_iff (1 - a) i c u hfloor hurl).mp hacc
    rw [ht] at this
    exact lt_irrefl _ this

/-- C3 witness: the acceptance instances at the concrete 500×400 canvas
with transparency fraction exactly 1/5. -/
theorem c3_canvas_acceptance_witness :
    (canvasToImg (1 - 13/20) 0 canvasPage).isSome ∧
    (canvasToImg (1 - 1/5) 0 canvasPage).isSome :=
  ⟨(c3_canvas_acceptance (13/20) 0 canvasPage "data:image/png;base64,AAAA"
      (by norm_num [canvasPage, CONFIG.niconicoMinPixelCount]) rfl).2.1
      transparencyFraction_canvasPage,
   (c3_canvas_acceptance (1/5) 0 canvasPage "data:image/png;base64,AAAA"
      (by norm_num [canvasPage, CONFIG.niconicoMinPixelCount]) rfl).2.2.1
      transparencyFraction_canvasPage⟩

/-- C4 (counterexample): the claim says testDetection leaves the live
session state unchanged; but its `auto` entry is the live
detectWithAutoFallback, which overwrites `state.detectedMode` — on an
empty page a previously recorded mode is reset to null. -/
theorem c4_testdetection_mutates_detected_mode :
    (handleTestDetection sessionDetected envEmpty).2.1.detectedMode ≠
      sessionDetected.detectedMode := by
  decide

/-- C4 (amended): testDetection responds success with the per-strategy
counts keyed in the fixed table order, leaves `state.images` unchanged,
but sets `state.detectedMode` to whatever the live auto run produces (the
auto winner or null); the `auto` entry of the results is that run's
count. -/
theorem c4_testdetection_behavior (s : Session) (e : Env) :
    (handleTestDetection s e).1.success = true ∧
    ((handleTestDetection s e).1.results).map Prod.fst = testDetectionOrder ∧
    (handleTestDetection s e).2.1.images = s.images ∧
    (handleTestDetection s e).2.1.detectedMode =
      (detectWithAutoFallback s e).2.1.detectedMode ∧
    ((handleTestDetection s e).1.results).head? =
      some ("auto", (detectWithAutoFallback s e).1.length) := by
  have h1 : (handleTestDetection s e).2.1 =
      (testLoop ["smart", "deep-scan", "basic", "frame-reader",
        "reading-content", "chapter-content", "manga-reader",
        "entry-content", "niconico-seiga"]
        (testMethodRun s "auto" e).2.1 (testMethodRun s "auto" e).2.2).2.1 := rfl
  have hsession : (handleTestDetection s e).2.1 = (detectWithAutoFallback s e).2.1 := by
    rw [h1, testLoop_session_no_auto _ (by decide)]
    rfl
  refine ⟨rfl, testLoop_keys testDetectionOrder s e, ?_, ?_, rfl⟩
  · rw [hsession]
    rfl
  · rw [hsession]

/-- C5: whenever the launchViewer flow's auto-search finds a winning
strategy while the configured mode is still auto, the winner is persisted
under the per-hostname storage key and adopted as the session's detection
mode, and the launch succeeds. -/
theorem c5_pin_auto_winner (s : Session) (e : Env) (n : String)
    (hmode : s.detectionMode = "auto")
    (hwin : (detect s e).2.1.detectedMode = some n) :
    (handleLaunchViewer s e).1.success = true ∧
    (handleLaunchViewer s e).2.1.storedDetectionMode = some n ∧
    (handleLaunchViewer s e).2.1.detectionMode = n := by
  have hd := detect_of_auto s e hmode
  have hloop : (autoLoop s.niconicoThreshold strategyOrder e).2.1 = some n := by
    have h2 := hwin
    rw [hd] at h2
    exact h2
  have hlen2 : CONFIG.minMangaImageCount ≤ (detect s e).1.length := by
    rw [hd]
    exact autoLoop_winner_length _ _ _ n hloop
  have hrlen : CONFIG.minMangaImageCount ≤ (refresh s e).1.images.length := by
    rw [refresh_images_length]
    exact hlen2
  have hifpos : handleLaunchViewer s e =
      ({ success := true }, showPage0 (pinDetectedMode (refresh s e).1),
       (refresh s e).2.1) := by
    rw [handleLaunchViewer, if_pos hrlen]
  have hdm : (refresh s e).1.detectedMode = some n := by
    rw [refresh_fst_detectedMode, hwin]
  have hmm : (refresh s e).1.detectionMode = "auto" := by
    rw [refresh_fst_detectionMode, hmode]
  have hpin := pinDetectedMode_of_winner (refresh s e).1 n hdm hmm
  refine ⟨by rw [hifpos], ?_, ?_⟩
  · rw [hifpos]
    show (showPage0 (pinDetectedMode (refresh s e).1)).storedDetectionMode = some n
    rw [showPage0_storedDetectionMode, hpin]
  · rw [hifpos]
    show (showPage0 (pinDetectedMode (refresh s e).1)).detectionMode = n
    rw [showPage0_detectionMode, hpin]

/-- C5 witness: on a page with two qualifying document images, a fresh
auto session pins the winning basic strategy. -/
theorem c5_pin_auto_winner_witness :
    (handleLaunchViewer sessionDefault envTwoImgs).1.success = true ∧
    (handleLaunchViewer sessionDefault envTwoImgs).2.1.storedDetectionMode =
      some "basic" ∧
    (handleLaunchViewer sessionDefault envTwoImgs).2.1.detectionMode = "basic" :=
  c5_pin_auto_winner sessionDefault envTwoImgs "basic" rfl (by decide)

/-- C6: launchViewer first refreshes; with fewer than 2 images it answers
success false with reason insufficient_images and leaves the viewer
visibility and page untouched, with 2 or more it opens the viewer at page
0 and answers success true. -/
theorem c6_launch_viewer_gate (s : Session) (e : Env) :
    (handleLaunchViewer s e).2.1.images = (refresh s e).1.images ∧
    ((refresh s e).1.images.length < CONFIG.minMangaImageCount →
      (handleLaunchViewer s e).1 =
        { success := false, reason := some "insufficient_images" } ∧
      (handleLaunchViewer s e).2.1.viewerVisible = s.viewerVisible ∧
      (handleLaunchViewer s e).2.1.currentPage = s.currentPage) ∧
    (CONFIG.minMangaImageCount ≤ (refresh s e).1.images.length →
      (handleLaunchViewer s e).1 = { success := true } ∧
      (handleLaunchViewer s e).2.1.viewerVisible = true ∧
      (handleLaunchViewer s e).2.1.currentPage = 0) := by
  by_cases hlen : CONFIG.minMangaImageCount ≤ (refresh s e).1.images.length
  · have hifpos : handleLaunchViewer s e =
        ({ success := true }, showPage0 (pinDetectedMode (refresh s e).1),
         (refresh s e).2.1) := by
      rw [handleLaunchViewer, if_pos hlen]
    have h2 : 2 ≤ (refresh s e).1.images.length := hlen
    have hlen0 : ¬ (pinDetectedMode (refresh s e).1).images.length = 0 := by
      rw [pinDetectedMode_images]
      omega
    refine ⟨?_, fun hc => absurd hlen (Nat.not_le.mpr hc), fun _ => ?_⟩
    · rw [hifpos]
      show (showPage0 (pinDetectedMode (refresh s e).1)).images = _
      rw [showPage0_images, pinDetectedMode_images]
    · refine ⟨by rw [hifpos], ?_, ?_⟩
      · rw [hifpos]
        show (showPage0 (pinDetectedMode (refresh s e).1)).viewerVisible = true
        rw [showPage0, if_neg hlen0]
      · rw [hifpos]
        show (showPage0 (pinDetectedMode (refresh s e).1)).currentPage = 0
        rw [showPage0, if_neg hlen0]
  · have hifneg : handleLaunchViewer s e =
        ({ success := false, reason := some "insufficient_images" },
         (refresh s e).1, (refresh s e).2.1) := by
      rw [handleLaunchViewer, if_neg hlen]
    refine ⟨by rw [hifneg], fun _ => ?_, fun hc => absurd hc hlen⟩
    refine ⟨by rw [hifneg], ?_, ?_⟩
    · rw [hifneg]
      exact refresh_fst_viewerVisible s e
    · rw [hifneg]
      exact refresh_fst_currentPage s e

/-- C6 witness: the empty page takes the insufficient_images branch, the
two-image page opens the viewer at page 0. -/
theorem c6_launch_viewer_gate_witness :
    ((handleLaunchViewer sessionDefault envEmpty).1 =
      { success := false, reason := some "insufficient_images" } ∧
     (handleLaunchViewer sessionDefault envEmpty).2.1.viewerVisible =
       sessionDefault.viewerVisible ∧
     (handleLaunchViewer sessionDefault envEmpty).2.1.currentPage =
       sessionDefault.currentPage) ∧
    ((handleLaunchViewer sessionDefault envTwoImgs).1 = { success := true } ∧
     (handleLaunchViewer sessionDefault envTwoImgs).2.1.viewerVisible = true ∧
     (handleLaunchViewer sessionDefault envTwoImgs).2.1.currentPage = 0) :=
  ⟨(c6_launch_viewer_gate sessionDefault envEmpty).2.1 (by decide),
   (c6_launch_viewer_gate sessionDefault envTwoImgs).2.2 (by decide)⟩

/-- C7: a refresh replaces state.images and reports a page-info update
only if the newly detected list differs from the previous one in length
or in identity at some position; when the lists agree pointwise,
state.images is unchanged and no page-info update happens. -/
theorem c7_refresh_updates_only_on_change (s : Session) (e : Env) :
    ((refresh s e).2.2 = true → imagesDiffer s.images (detect s e).1) ∧
    (imagesDiffer s.images (detect s e).1 →
      (refresh s e).1.images = (detect s e).1) ∧
    (¬ imagesDiffer s.images (detect s e).1 →
      (refresh s e).1.images = s.images ∧ (refresh s e).2.2 = false) := by
  by_cases hch : imagesChangedB s.images (detect s e).1 = true
  · have hr : refresh s e =
        ({ (detect s e).2.1 with images := (detect s e).1 },
         (detect s e).2.2, (detect s e).2.1.viewerVisible) := by
      rw [refresh, if_pos hch]
    have hdiff := (imagesChangedB_iff _ _).mp hch
    exact ⟨fun _ => hdiff, fun _ => by rw [hr], fun hnd => absurd hdiff hnd⟩
  · have hr : refresh s e = ((detect s e).2.1, (detect s e).2.2, false) := by
      rw [refresh, if_neg hch]
    have hndiff : ¬ imagesDiffer s.images (detect s e).1 :=
      fun hd2 => hch ((imagesChangedB_iff _ _).mpr hd2)
    obtain ⟨m, hm⟩ := detect_session_shape s e
    refine ⟨fun hu => ?_, fun hd2 => absurd hd2 hndiff, fun _ => ⟨?_, by rw [hr]⟩⟩
    · rw [hr] at hu
      simp at hu
    · rw [hr]
      show (detect s e).2.1.images = s.images
      rw [hm]

/-- C7 witness: on the empty page the detected list equals the stored one
pointwise, so the refresh neither replaces state.images nor updates the
page info. -/
theorem c7_refresh_updates_only_on_change_witness :
    (refresh sessionDefault envEmpty).1.images = sessionDefault.images ∧
    (refresh sessionDefault envEmpty).2.2 = false :=
  (c7_refresh_updates_only_on_change sessionDefault envEmpty).2.2 (by
    intro h
    have hnil : (detect sessionDefault envEmpty).1 = ([] : List Img) := by decide
    rw [hnil] at h
    rcases h with h1 | ⟨i, hi, _⟩
    · exact h1 rfl
    · exact Nat.not_lt_zero i hi)

/-- C8: every pinned, non-auto detection mode is idempotent on the
environment: running it a second time against the DOM state its first run
leaves behind returns the same ordered candidate list. -/
theorem c8_strategy_idempotent (s : Session) (mode : String) (e : Env)
    (h : mode ≠ "auto") :
    (detectByMode s mode (detectByMode s mode e).2.2).1 =
      (detectByMode s mode e).1 := by
  by_cases hm : mode ∈ strategyOrder
  · have hd : ∀ e2 : Env, detectByMode s mode e2 =
        withSession s (strategyRun s.niconicoThreshold mode e2) := by
      intro e2
      rw [detectByMode, if_neg h, if_pos hm]
    rw [hd, hd]
    show (strategyRun s.niconicoThreshold mode
      (strategyRun s.niconicoThreshold mode e).2).1 =
      (strategyRun s.niconicoThreshold mode e).1
    exact strategyRun_idem s.niconicoThreshold mode e
  · have hd : ∀ e2 : Env, detectByMode s mode e2 =
        withSession s (detectFromDocument e2) := by
      intro e2
      rw [detectByMode, if_neg h, if_neg hm]
    rw [hd, hd]
    show (detectFromDocument (detectFromDocument e).2).1 = (detectFromDocument e).1
    exact detectFromDocument_idem e

/-- C8 witness: the basic scan run twice over the two-image page returns
the same list both times. -/
theorem c8_strategy_idempotent_witness :
    (detectByMode sessionDefault "basic"
      (detectByMode sessionDefault "basic" envTwoImgs).2.2).1 =
      (detectByMode sessionDefault "basic" envTwoImgs).1 :=
  c8_strategy_idempotent sessionDefault "basic" envTwoImgs (by decide)

/-- C9: the basic DOM scan checks the minimum count before URL
de-duplication: fewer than 2 filtered candidates yield the empty list (a
single qualifying image gives no result), while 2 candidates sharing one
URL pass the check and are de-duplicated afterwards, so a result of
length 1 is possible. -/
theorem c9_min_count_before_dedup (e : Env) :
    ((potentialImages e).length < CONFIG.minMangaImageCount →
      (detectFromDocument e).1 = []) ∧
    (CONFIG.minMangaImageCount ≤ (potentialImages e).length →
      (detectFromDocument e).1 =
        sortImagesByPosition (dedupeByKey Img.src [] (potentialImages e))) ∧
    (detectFromDocument envSingleQual).1 = [] ∧
    (detectFromDocument envDupUrl).1.length = 1 := by
  refine ⟨?_, ?_, by decide, by decide⟩
  · intro h
    show filterAndSortImages (potentialImages e) = []
    rw [filterAndSortImages, if_pos h]
  · intro h
    show filterAndSortImages (potentialImages e) = _
    rw [filterAndSortImages, if_neg (Nat.not_lt.mpr h)]

/-- C9 witness: the single qualifying image of envSingleQual is below the
minimum count, so even the pinned basic mode returns nothing there. -/
theorem c9_min_count_before_dedup_witness :
    (detectFromDocument envSingleQual).1 = [] :=
  (c9_min_count_before_dedup envSingleQual).1 (by decide)

/-- C10: a detection-mode string outside the ten known names (for example
one set by an updateDetectionMode message) falls back to the basic DOM
scan: detectByMode returns exactly the basic scan's result, and so does a
detect run after the mode update. -/
theorem c10_unknown_mode_falls_back (s : Session) (mode : String) (e : Env)
    (h : mode ∉ detectionModeNames) :
    detectByMode s mode e =
      ((detectFromDocument e).1, s, (detectFromDocument e).2) ∧
    detect (handleUpdateDetectionMode s mode) e =
      ((detectFromDocument e).1, handleUpdateDetectionMode s mode,
        (detectFromDocument e).2) := by
  have h0 : mode ≠ "auto" := fun hh => h (by rw [hh]; decide)
  have h1 : mode ∉ strategyOrder := fun hm => h (mem_strategyOrder_mem_names mode hm)
  refine ⟨detectByMode_unknown s mode e h0 h1, ?_⟩
  rw [detect,
    if_pos (show (handleUpdateDetectionMode s mode).detectionMode ≠ "auto" from h0)]
  exact detectByMode_unknown (handleUpdateDetectionMode s mode) mode e h0 h1

/-- C10 witness: the unknown mode string "mystery" set on a fresh session
runs the basic DOM scan on the empty page. -/
theorem c10_unknown_mode_falls_back_witness :
    detectByMode sessionDefault "mystery" envEmpty =
      ((detectFromDocument envEmpty).1, sessionDefault,
        (detectFromDocument envEmpty).2) :=
  (c10_unknown_mode_falls_back sessionDefault "mystery" envEmpty (by decide)).1

end MangaViewer
